import Mathlib

/-!
Shallow embedding of `src/app.py` (WBAM Training App ledger), with theorems
settling the frozen claims about its specification.

Modelling conventions:
* Python JSON values are the inductive `Json` (rationals stand for the exact
  values of Python floats/ints; every finite binary float is a rational).
* `json.loads ∘ json.dumps` is the identity on JSON values, so the
  export/import pipeline is modelled at the parsed-`Json` level.
* Timestamps (`now_iso()`) and fresh ids (`new_id()`) are passed in as
  explicit string parameters.
* The result of Python's `float(x)` coercion inside `clamp` is modelled as
  `Option ℚ`: `some q` when the coercion succeeds with value `q`, `none` when
  it raises (non-numeric input such as the string "abc").
-/

namespace WBAM

/-- JSON values as handled by Python's `json` module. -/
inductive Json where
  | null : Json
  | bool (b : Bool) : Json
  | num (q : ℚ) : Json
  | str (s : String) : Json
  | arr (xs : List Json) : Json
  | obj (kvs : List (String × Json)) : Json

/-- Look up a key of a JSON object (Python `d[k]`, first binding wins). -/
def Json.get? (k : String) : Json → Option Json
  | .obj kvs => (kvs.find? (fun kv => kv.1 == k)).map (·.2)
  | _ => none

/-- `clamp(x, lo=0, hi=10)` from app.py lines 16–21: `float(x)`, returning
`lo` if the coercion raises, else `max(lo, min(hi, x))`.  All call sites use
the default bounds `lo = 0`, `hi = 10`. -/
def clamp (x : Option ℚ) : ℚ :=
  match x with
  | none => 0
  | some v => max 0 (min 10 v)

/-- Python `int()` applied to a (rational-valued) float: truncation toward
zero.  (`Rat.floor` is used rather than `⌊⌋` so the definition evaluates by
kernel reduction; `-(-q).floor = ⌈q⌉`.) -/
def pyInt (q : ℚ) : ℤ :=
  if q < 0 then -((-q).floor) else q.floor

/-- `pct(score)` from app.py lines 23–24: `int((clamp(score) / 10) * 100)`. -/
def pct (score : Option ℚ) : ℤ :=
  pyInt (clamp score / 10 * 100)

/-- Python 3 `round()` to an integer: nearest, ties to even.  This is the
rounding function named by the specification's `readinessPercent` formula; it
is NOT what `pct` uses. -/
def pyRound (q : ℚ) : ℤ :=
  let f := q.floor
  let r := q - f
  if r < 1/2 then f
  else if 1/2 < r then f + 1
  else if f % 2 = 0 then f else f + 1

/-- A row of `ledger["sessions"]`. -/
structure Session where
  session_id : String
  started_at : String
  topic : String
  module : String
  level : ℤ
  deriving DecidableEq

/-- A row of `ledger["tasks"]`.  `completed_at` is `None`-able. -/
structure Task where
  task_id : String
  session_id : String
  title : String
  status : String
  difficulty : ℤ
  created_at : String
  completed_at : Option String
  deriving DecidableEq

/-- A row of `ledger["scores"]`: seven numeric skill fields. -/
structure ScoreRow where
  score_id : String
  session_id : String
  created_at : String
  python : ℚ
  sql : ℚ
  bi : ℚ
  banking : ℚ
  analytical : ℚ
  business : ℚ
  portfolio : ℚ
  deriving DecidableEq

/-- A row of `ledger["notes"]`. -/
structure Note where
  note_id : String
  session_id : String
  created_at : String
  action_answer : String
  technical_notes : String
  deriving DecidableEq

/-- The typed shape of the ledger document (app.py `empty_ledger`, lines
29–40).  The constant `meta.app` / `meta.version` strings are omitted from
the typed view; `meta_created_at` keeps the mutable part of `meta`. -/
structure Ledger where
  meta_created_at : String
  sessions : List Session
  tasks : List Task
  scores : List ScoreRow
  notes : List Note
  deriving DecidableEq

/-- `empty_ledger()` (app.py lines 29–40) at the JSON level, with the
`now_iso()` timestamp `t` passed in. -/
def empty_ledger (t : String) : Json :=
  .obj [
    ("meta", .obj [
      ("app", .str "WBAM Training App"),
      ("version", .str "1.0"),
      ("created_at", .str t)]),
    ("sessions", .arr []),
    ("tasks", .arr []),
    ("scores", .arr []),
    ("notes", .arr [])]

/-- State of the backing file `wbam_ledger.json` as seen by `load_ledger`:
absent, or present with content that `json.loads` either rejects or parses. -/
inductive FileContent where
  | absent : FileContent
  | malformed (raw : String) : FileContent
  | wellFormed (doc : Json) : FileContent

/-- Outcome of `load_ledger()`: the parsed/fresh document, or the
`json.JSONDecodeError` that propagates to the caller. -/
inductive LoadResult where
  | ok (doc : Json) : LoadResult
  | jsonDecodeError : LoadResult

/-- `load_ledger()` (app.py lines 42–45): if the file exists, return
`json.loads` of its text (a malformed file makes the exception propagate);
otherwise return `empty_ledger()` stamped with the current time `t`. -/
def load_ledger (file : FileContent) (t : String) : LoadResult :=
  match file with
  | .wellFormed doc => .ok doc
  | .malformed _ => .jsonDecodeError
  | .absent => .ok (empty_ledger t)

/-- `get_sessions(ledger)` (app.py lines 50–51):
`sorted(ledger["sessions"], key=lambda s: s["started_at"], reverse=True)`.
Python's sort is stable; `reverse=True` sorts descending while keeping tied
elements in input order, which is exactly a stable merge sort under the
comparison `b.started_at ≤ a.started_at`. -/
def get_sessions (ledger : Ledger) : List Session :=
  ledger.sessions.mergeSort (fun a b => decide (b.started_at ≤ a.started_at))

/-- `get_tasks_for_session(ledger, session_id)` (app.py lines 59–61): filter
tasks by `session_id`, then sort by `created_at` descending. -/
def get_tasks_for_session (ledger : Ledger) (session_id : String) : List Task :=
  (ledger.tasks.filter (fun t => t.session_id == session_id)).mergeSort
    (fun a b => decide (b.created_at ≤ a.created_at))

/-- `next_objective_from_tasks(tasks)` (app.py lines 69–77): priority
doing > todo > none, taking the first matching task in input order. -/
def next_objective_from_tasks (tasks : List Task) : String :=
  let doing := tasks.filter (fun t => t.status == "doing")
  let todo := tasks.filter (fun t => t.status == "todo")
  match doing with
  | d :: _ => "Continue: " ++ d.title
  | [] =>
    match todo with
    | t :: _ => "Start: " ++ t.title
    | [] => "No pending tasks. Create the next technical task."

/-- Python `str.strip()`: remove whitespace from both ends of the string.
(Structural on the character list, so that it evaluates by kernel
reduction; whitespace is `Char.isWhitespace`.) -/
def pyStrip (s : String) : String :=
  ⟨((s.data.dropWhile Char.isWhitespace).reverse.dropWhile Char.isWhitespace).reverse⟩

/-- The "Add Task" handler (app.py lines 177–192).  `tid` models `new_id()`
and `t` models `now_iso()`.  Returns the (possibly unchanged) ledger and the
error message shown by `st.error`, if any. -/
def addTask (ledger : Ledger) (session_id title : String) (difficulty : ℤ)
    (status : String) (tid t : String) : Ledger × Option String :=
  if pyStrip title = "" then
    (ledger, some "Task title is required.")
  else
    ({ ledger with tasks := ledger.tasks ++ [{
        task_id := tid,
        session_id := session_id,
        title := pyStrip title,
        status := status,
        difficulty := difficulty,
        created_at := t,
        completed_at := if status = "done" then some t else none }] },
     none)

/-- The loop body of the "Apply Status" handler: walk `ledger["tasks"]`,
update the FIRST task whose `task_id` matches, then `break`. -/
def updateFirstTask (tid new_status t : String) : List Task → List Task
  | [] => []
  | task :: rest =>
    if task.task_id = tid then
      { task with
        status := new_status,
        completed_at := if new_status = "done" then some t else none } :: rest
    else
      task :: updateFirstTask tid new_status t rest

/-- The "Apply Status" handler (app.py lines 207–213). -/
def updateTaskStatus (ledger : Ledger) (tid new_status t : String) : Ledger :=
  { ledger with tasks := updateFirstTask tid new_status t ledger.tasks }

/-- The "Save snapshot" handler (app.py lines 242–264): the seven widget
values are each passed through `clamp` (lines 242–250) and the clamped
values are appended as one score row.  Each input is the result of the
`float()` coercion inside `clamp` (`none` when it raises). -/
def addScoreSnapshot (ledger : Ledger) (session_id sid t : String)
    (python sql bi banking analytical business portfolio : Option ℚ) : Ledger :=
  { ledger with scores := ledger.scores ++ [{
      score_id := sid,
      session_id := session_id,
      created_at := t,
      python := clamp python,
      sql := clamp sql,
      bi := clamp bi,
      banking := clamp banking,
      analytical := clamp analytical,
      business := clamp business,
      portfolio := clamp portfolio }] }

/-- `upsert_latest_note` (app.py lines 79–87): despite the name, a pure
append to `ledger["notes"]`. -/
def upsert_latest_note (ledger : Ledger) (session_id action_answer technical_notes : String)
    (nid t : String) : Ledger :=
  { ledger with notes := ledger.notes ++ [{
      note_id := nid,
      session_id := session_id,
      created_at := t,
      action_answer := action_answer,
      technical_notes := technical_notes }] }

/-- Title of the auto-created Week 1 task (app.py line 309). -/
def week1Title : String :=
  "Week 1: Data Grain Discipline — write correct merge/aggregation procedure"

/-- The "Save Week 1 Notes to Ledger" handler (app.py lines 302–315):
append the note, then — if no task of this session has a title starting
with "Week 1: Data Grain Discipline" — append the auto-created task with
status "doing", difficulty 1 and `completed_at = None`. -/
def saveWeek1Notes (ledger : Ledger) (session_id action_answer technical_notes : String)
    (nid tid tNote tTask : String) : Ledger :=
  let ledger1 := upsert_latest_note ledger session_id action_answer technical_notes nid tNote
  if ledger1.tasks.any (fun tk =>
      tk.session_id == session_id && tk.title.startsWith "Week 1: Data Grain Discipline") then
    ledger1
  else
    { ledger1 with tasks := ledger1.tasks ++ [{
        task_id := tid,
        session_id := session_id,
        title := week1Title,
        status := "doing",
        difficulty := 1,
        created_at := tTask,
        completed_at := none }] }

/-- In-memory document plus the persisted copy written by `save_ledger`
(app.py lines 47–48), at the JSON level. -/
structure AppState where
  ledger : Json
  saved : Json

/-- What the import handler reports via `st.success` / `st.error`. -/
inductive ImportOutcome where
  | imported : ImportOutcome
  | invalidFormat : ImportOutcome
  | importError : ImportOutcome
  deriving DecidableEq

/-- The five keys of the minimal schema check (app.py line 348). -/
def requiredKeys : List String := ["sessions", "tasks", "scores", "notes", "meta"]

/-- `export_str` (app.py line 334): `json.dumps(ledger, ...)`, modelled at the
parsed-value level (serialisation followed by `json.loads` is the identity on
JSON values). -/
def exportDocument (st : AppState) : Json :=
  st.ledger

/-- The upload handler (app.py lines 344–357).  `uploaded` is the result of
`json.loads` on the uploaded bytes (`none` when it raises).  A non-object
value makes `incoming.keys()` raise `AttributeError`, caught by the same
`except` branch.  If any required key is missing the state is untouched and
"Invalid ledger format (missing keys)." is shown; otherwise the document
replaces the in-memory ledger and is persisted by `save_ledger`. -/
def importDocument (uploaded : Option Json) (st : AppState) : AppState × ImportOutcome :=
  match uploaded with
  | none => (st, .importError)
  | some incoming =>
    match incoming with
    | .obj kvs =>
      if requiredKeys.all (fun k => (kvs.map (fun kv => kv.1)).contains k) then
        ({ ledger := .obj kvs, saved := .obj kvs }, .imported)
      else
        (st, .invalidFormat)
    | _ => (st, .importError)

/-! ### Helper lemmas -/

/-- Batteries' computable `Rat.floor` agrees with the `FloorRing` floor. -/
theorem ratFloor_eq_intFloor (q : ℚ) : q.floor = ⌊q⌋ := by
  rw [Rat.floor_def', Rat.floor_def]

/-- `clamp` always lands in `[0, 10]`. -/
theorem clamp_mem (x : Option ℚ) : 0 ≤ clamp x ∧ clamp x ≤ 10 := by
  cases x with
  | none => simp [clamp]
  | some v =>
    refine ⟨le_max_left _ _, max_le (by norm_num) (min_le_left _ _)⟩

/-- All seven fields of a score row lie in `[0, 10]`. -/
def scoreRowInRange (r : ScoreRow) : Prop :=
  (0 ≤ r.python ∧ r.python ≤ 10) ∧ (0 ≤ r.sql ∧ r.sql ≤ 10) ∧
  (0 ≤ r.bi ∧ r.bi ≤ 10) ∧ (0 ≤ r.banking ∧ r.banking ≤ 10) ∧
  (0 ≤ r.analytical ∧ r.analytical ≤ 10) ∧ (0 ≤ r.business ∧ r.business ≤ 10) ∧
  (0 ≤ r.portfolio ∧ r.portfolio ≤ 10)

/-! ### Claims -/

/-- **C1.** Every score row stored by the "Save snapshot" handler has its
seven fields clamped into `[0, 10]`, whatever the inputs (numeric,
non-numeric — modelled by `none` —, negative or above 10); in particular
`clamp` maps `-5` to `0`, a non-numeric input such as `"abc"` to the lower
bound `0`, and `15` to `10`.  The handler only appends: rows already present
are untouched. -/
theorem addScoreSnapshot_clamps_into_range
    (L : Ledger) (session_id sid t : String)
    (python sql bi banking analytical business portfolio : Option ℚ) :
    (∀ r ∈ (addScoreSnapshot L session_id sid t
        python sql bi banking analytical business portfolio).scores,
      r ∈ L.scores ∨ scoreRowInRange r)
    ∧ clamp (some (-5)) = 0 ∧ clamp none = 0 ∧ clamp (some 15) = 10 := by
  refine ⟨?_, ?_, by simp [clamp], ?_⟩
  · intro r hr
    simp only [addScoreSnapshot, List.mem_append, List.mem_singleton] at hr
    rcases hr with hold | rfl
    · exact Or.inl hold
    · refine Or.inr ⟨clamp_mem _, clamp_mem _, clamp_mem _, clamp_mem _,
        clamp_mem _, clamp_mem _, clamp_mem _⟩
  · show max 0 (min 10 (-5 : ℚ)) = 0
    rw [min_eq_right (by norm_num), max_eq_left (by norm_num)]
  · show max 0 (min 10 (15 : ℚ)) = 10
    rw [min_eq_left (by norm_num), max_eq_right (by norm_num)]

/-- **C6 (counterexample).** At input `9.99` the code's `pct` yields `99`:
`int()` truncates, while the specification's formula
`round(clamp(score,0,10) / 10 * 100)` yields `100` (the exact value is
`99.9`).  So `readinessPercent` does not equal the `round` formula. -/
theorem pct_truncates_not_rounds :
    pct (some (999/100)) = 99 ∧ pyRound (clamp (some (999/100)) / 10 * 100) = 100 := by
  constructor
  · simp only [pct, clamp, pyInt, ratFloor_eq_intFloor]
    norm_num
  · simp only [pyRound, clamp, ratFloor_eq_intFloor]
    norm_num

/-- **C6 (amended).** `pct(score) = int((clamp(score)/10)*100)` truncates
toward zero — equivalently takes the floor, the value being non-negative —
of `clamp(score,0,10) / 10 * 100`, and is an integer in `[0, 100]`. -/
theorem pct_floor_in_range (score : Option ℚ) :
    pct score = ⌊clamp score / 10 * 100⌋ ∧ 0 ≤ pct score ∧ pct score ≤ 100 := by
  obtain ⟨h0, h10⟩ := clamp_mem score
  have hq0 : (0 : ℚ) ≤ clamp score / 10 * 100 := by positivity
  have heq : pct score = ⌊clamp score / 10 * 100⌋ := by
    rw [pct, pyInt, if_neg (by exact not_lt.mpr hq0), ratFloor_eq_intFloor]
  refine ⟨heq, ?_, ?_⟩
  · rw [heq]; exact Int.floor_nonneg.mpr hq0
  · rw [heq]
    have : clamp score / 10 * 100 ≤ 100 := by
      calc clamp score / 10 * 100 ≤ (10 : ℚ) / 10 * 100 := by gcongr
        _ = 100 := by norm_num
    calc ⌊clamp score / 10 * 100⌋ ≤ ⌊(100 : ℚ)⌋ := Int.floor_le_floor this
      _ = 100 := by norm_num

/-- The head of a filtered list is the first element satisfying the test. -/
theorem head?_filter_eq_find? (p : α → Bool) : ∀ l : List α, (l.filter p).head? = l.find? p
  | [] => rfl
  | a :: l => by
    by_cases h : p a
    · simp [List.filter_cons, List.find?_cons, h]
    · simp [List.filter_cons, List.find?_cons, h, head?_filter_eq_find? p l]

/-- **C5.** `next_objective_from_tasks` is a three-branch priority rule over
the input order: the first task with status "doing" gives a
`"Continue: <title>"` label; failing that, the first "todo" task gives a
`"Start: <title>"` label; otherwise the sentinel no-pending-tasks message is
returned. -/
theorem next_objective_priority (tasks : List Task) :
    (∀ d, tasks.find? (fun t => t.status == "doing") = some d →
        next_objective_from_tasks tasks = "Continue: " ++ d.title)
    ∧ (tasks.find? (fun t => t.status == "doing") = none →
        ∀ d, tasks.find? (fun t => t.status == "todo") = some d →
          next_objective_from_tasks tasks = "Start: " ++ d.title)
    ∧ (tasks.find? (fun t => t.status == "doing") = none →
        tasks.find? (fun t => t.status == "todo") = none →
        next_objective_from_tasks tasks
          = "No pending tasks. Create the next technical task.") := by
  refine ⟨?_, ?_, ?_⟩
  · intro d hf
    rw [← head?_filter_eq_find?] at hf
    unfold next_objective_from_tasks
    cases hfil : tasks.filter (fun t => t.status == "doing") with
    | nil => rw [hfil] at hf; simp at hf
    | cons d' rest =>
      rw [hfil] at hf
      simp only [List.head?_cons, Option.some.injEq] at hf
      subst hf
      simp [hfil]
  · intro hdo d hf
    rw [← head?_filter_eq_find?] at hf
    rw [← head?_filter_eq_find?] at hdo
    unfold next_objective_from_tasks
    cases hfil : tasks.filter (fun t => t.status == "todo") with
    | nil => rw [hfil] at hf; simp at hf
    | cons d' rest =>
      rw [hfil] at hf
      simp only [List.head?_cons, Option.some.injEq] at hf
      subst hf
      rcases hnil : tasks.filter (fun t => t.status == "doing") with _ | ⟨x, xs⟩
      · simp [hnil, hfil]
      · rw [hnil] at hdo; simp at hdo
  · intro hdo hto
    rw [← head?_filter_eq_find?] at hdo hto
    unfold next_objective_from_tasks
    rcases hnil : tasks.filter (fun t => t.status == "doing") with _ | ⟨x, xs⟩
    · rcases hnil2 : tasks.filter (fun t => t.status == "todo") with _ | ⟨y, ys⟩
      · simp [hnil, hnil2]
      · rw [hnil2] at hto; simp at hto
    · rw [hnil] at hdo; simp at hdo

/-- Concrete task "A" (status todo) of the C5 scenario. -/
def taskA : Task :=
  { task_id := "t-a", session_id := "s1", title := "A", status := "todo",
    difficulty := 1, created_at := "2024-01-01T00:00:00", completed_at := none }

/-- Concrete task "B" (status doing) of the C5 scenario. -/
def taskB : Task :=
  { task_id := "t-b", session_id := "s1", title := "B", status := "doing",
    difficulty := 1, created_at := "2024-01-02T00:00:00", completed_at := none }

/-- **C5 (witness).** For `[{status:"todo", title:"A"}, {status:"doing",
title:"B"}]` the objective is "Continue: B". -/
theorem next_objective_priority_witness :
    next_objective_from_tasks [taskA, taskB] = "Continue: B" := by
  rw [(next_objective_priority [taskA, taskB]).1 taskB (by decide)]
  rfl

/-- **C9.** `get_sessions` returns exactly the sessions, in non-increasing
`started_at` order, and `get_tasks_for_session` returns exactly the tasks
with the given `session_id`, in non-increasing `created_at` order.  Both are
pure functions of the document, hence deterministic (ties included). -/
theorem listings_sorted_desc (L : Ledger) (sid : String) :
    List.Perm (get_sessions L) L.sessions
    ∧ (get_sessions L).Pairwise (fun a b => b.started_at ≤ a.started_at)
    ∧ List.Perm (get_tasks_for_session L sid)
        (L.tasks.filter (fun t => t.session_id == sid))
    ∧ (get_tasks_for_session L sid).Pairwise (fun a b => b.created_at ≤ a.created_at) := by
  refine ⟨List.mergeSort_perm _ _, ?_, List.mergeSort_perm _ _, ?_⟩
  · have h := @List.sorted_mergeSort Session
      (fun a b => decide (b.started_at ≤ a.started_at))
      (fun a b c hab hbc =>
        decide_eq_true (le_trans (of_decide_eq_true hbc) (of_decide_eq_true hab)))
      (fun a b => by
        simp only [Bool.or_eq_true, decide_eq_true_eq]
        exact le_total b.started_at a.started_at)
      L.sessions
    exact h.imp (fun hab => of_decide_eq_true hab)
  · have h := @List.sorted_mergeSort Task
      (fun a b => decide (b.created_at ≤ a.created_at))
      (fun a b c hab hbc =>
        decide_eq_true (le_trans (of_decide_eq_true hbc) (of_decide_eq_true hab)))
      (fun a b => by
        simp only [Bool.or_eq_true, decide_eq_true_eq]
        exact le_total b.created_at a.created_at)
      (L.tasks.filter (fun t => t.session_id == sid))
    exact h.imp (fun hab => of_decide_eq_true hab)

/-- The task-status invariant: `completed_at` is non-null iff the status is
"done". -/
def taskStatusInv (t : Task) : Prop :=
  t.completed_at ≠ none ↔ t.status = "done"

instance : DecidablePred taskStatusInv := fun t => by
  unfold taskStatusInv; infer_instance

/-- Every task of the ledger satisfies the task-status invariant. -/
def tasksOk (L : Ledger) : Prop :=
  ∀ t ∈ L.tasks, taskStatusInv t

instance (L : Ledger) : Decidable (tasksOk L) := by
  unfold tasksOk; infer_instance

/-- `updateFirstTask` keeps the task-status invariant. -/
theorem updateFirstTask_keeps_inv (tid ns t : String) :
    ∀ l : List Task, (∀ tk ∈ l, taskStatusInv tk) →
      ∀ tk ∈ updateFirstTask tid ns t l, taskStatusInv tk
  | [], _ => by simp [updateFirstTask]
  | task :: rest, h => by
    unfold updateFirstTask
    by_cases he : task.task_id = tid
    · rw [if_pos he]
      intro tk htk
      rcases List.mem_cons.mp htk with rfl | hmem
      · by_cases hs : ns = "done" <;> simp [taskStatusInv, hs]
      · exact h _ (List.mem_cons_of_mem _ hmem)
    · rw [if_neg he]
      intro tk htk
      rcases List.mem_cons.mp htk with rfl | hmem
      · exact h _ (List.mem_cons_self _ _)
      · exact updateFirstTask_keeps_inv tid ns t rest
          (fun x hx => h _ (List.mem_cons_of_mem _ hx)) _ hmem

/-- **C2.** If every task satisfies "`completed_at` non-null iff status is
done", then after `addTask` (whether it accepts or rejects), after
`updateTaskStatus`, and after the Week-1 handler (which may auto-create its
task), every task still satisfies it. -/
theorem mutations_preserve_status_invariant
    (L : Ledger) (h : tasksOk L)
    (session_id title : String) (difficulty : ℤ)
    (status tid t tid2 ns aa tn nid tN tT : String) :
    tasksOk (addTask L session_id title difficulty status tid t).1
    ∧ tasksOk (updateTaskStatus L tid2 ns t)
    ∧ tasksOk (saveWeek1Notes L session_id aa tn nid tid tN tT) := by
  refine ⟨?_, ?_, ?_⟩
  · by_cases hT : pyStrip title = ""
    · simpa [addTask, hT] using h
    · intro tk htk
      simp only [addTask, if_neg hT, List.mem_append, List.mem_singleton] at htk
      rcases htk with hold | rfl
      · exact h _ hold
      · by_cases hs : status = "done" <;> simp [taskStatusInv, hs]
  · exact updateFirstTask_keeps_inv tid2 ns t L.tasks h
  · intro tk htk
    simp only [saveWeek1Notes, upsert_latest_note] at htk
    by_cases hex : (L.tasks.any (fun tk =>
        tk.session_id == session_id
        && tk.title.startsWith "Week 1: Data Grain Discipline")) = true
    · rw [if_pos hex] at htk
      exact h _ htk
    · rw [if_neg hex] at htk
      simp only [List.mem_append, List.mem_singleton] at htk
      rcases htk with hold | rfl
      · exact h _ hold
      · simp [taskStatusInv]

/-- A concrete well-formed task (status done, `completed_at` set). -/
def exTask : Task :=
  { task_id := "t-1", session_id := "s1", title := "Done thing", status := "done",
    difficulty := 2, created_at := "2024-01-01T00:00:00",
    completed_at := some "2024-01-02T00:00:00" }

/-- A concrete ledger satisfying the task-status invariant. -/
def exLedger : Ledger :=
  { meta_created_at := "2024-01-01T00:00:00", sessions := [],
    tasks := [exTask], scores := [], notes := [] }

/-- **C2 (witness).** The invariant-preservation theorem applied to the
concrete ledger `exLedger`. -/
theorem mutations_preserve_status_invariant_witness :
    tasksOk (addTask exLedger "s1" "New task" 1 "todo" "t-2" "2024-01-03T00:00:00").1
    ∧ tasksOk (updateTaskStatus exLedger "t-1" "doing" "2024-01-03T00:00:00")
    ∧ tasksOk (saveWeek1Notes exLedger "s1" "ans" "notes" "n-1" "t-2"
        "2024-01-03T00:00:00" "2024-01-03T00:00:00") :=
  mutations_preserve_status_invariant exLedger (by decide)
    "s1" "New task" 1 "todo" "t-2" "2024-01-03T00:00:00" "t-1" "doing"
    "ans" "notes" "n-1" "2024-01-03T00:00:00" "2024-01-03T00:00:00"

/-- **C8.** `addTask` rejects a title that is empty after trimming, with the
"Task title is required." error and the ledger unchanged; an accepted call
(title non-empty after trimming, difficulty in {1,2,3}, status in
{todo,doing,done}) appends exactly one task, storing the trimmed title, whose
`completed_at` is set at creation iff the status is "done". -/
theorem addTask_validates_title
    (L : Ledger) (session_id title : String) (difficulty : ℤ) (status tid t : String) :
    (pyStrip title = "" →
      addTask L session_id title difficulty status tid t
        = (L, some "Task title is required."))
    ∧ (pyStrip title ≠ "" → difficulty ∈ ([1, 2, 3] : List ℤ) →
        status ∈ (["todo", "doing", "done"] : List String) →
        ∃ tk, addTask L session_id title difficulty status tid t
            = ({ L with tasks := L.tasks ++ [tk] }, none)
          ∧ tk.title = pyStrip title
          ∧ (tk.completed_at ≠ none ↔ status = "done")) := by
  constructor
  · intro hT
    simp [addTask, hT]
  · intro hT _ _
    refine ⟨⟨tid, session_id, pyStrip title, status, difficulty, t,
        if status = "done" then some t else none⟩, ?_, rfl, ?_⟩
    · simp [addTask, hT]
    · by_cases hs : status = "done" <;> simp [hs]

/-- **C8 (witness).** A whitespace-only title is rejected with the error and
no change; an accepted "done" task stores the trimmed title and a non-null
`completed_at`. -/
theorem addTask_validates_title_witness :
    addTask exLedger "s1" "   " 1 "todo" "t-9" "2024-01-03T00:00:00"
      = (exLedger, some "Task title is required.")
    ∧ ∃ tk, addTask exLedger "s1" " Do thing " 2 "done" "t-9" "2024-01-03T00:00:00"
        = ({ exLedger with tasks := exLedger.tasks ++ [tk] }, none)
      ∧ tk.title = pyStrip " Do thing "
      ∧ (tk.completed_at ≠ none ↔ ("done" : String) = "done") :=
  ⟨(addTask_validates_title exLedger "s1" "   " 1 "todo" "t-9"
      "2024-01-03T00:00:00").1 (by decide),
   (addTask_validates_title exLedger "s1" " Do thing " 2 "done" "t-9"
      "2024-01-03T00:00:00").2 (by decide) (by decide) (by decide)⟩

/-- **C7.** `load_ledger` returns the parsed backing file when it exists and
parses; when the file is absent it returns the fresh empty document — whose
`meta.created_at` is the current time `t` — without raising; when the file
exists but is not valid JSON, the decode error is surfaced to the caller
(no coercion or repair). -/
theorem load_ledger_spec (t raw : String) (doc : Json) :
    load_ledger .absent t = .ok (empty_ledger t)
    ∧ ((empty_ledger t).get? "meta").bind (Json.get? "created_at") = some (.str t)
    ∧ load_ledger (.wellFormed doc) t = .ok doc
    ∧ load_ledger (.malformed raw) t = .jsonDecodeError :=
  ⟨rfl, rfl, rfl, rfl⟩

/-- **C3.** Importing the export of a valid document `d` (an object carrying
all five top-level keys) succeeds and makes `d` itself the active, persisted
document: `importDocument (exportDocument d) = d`. -/
theorem export_import_roundtrip
    (kvs : List (String × Json)) (saved0 : Json) (st2 : AppState)
    (hkeys : requiredKeys.all (fun k => (kvs.map (fun kv => kv.1)).contains k) = true) :
    importDocument (some (exportDocument ⟨.obj kvs, saved0⟩)) st2
      = (⟨.obj kvs, .obj kvs⟩, .imported) := by
  simp only [importDocument, exportDocument]
  rw [hkeys]
  rfl

/-- The key-value list of a concrete valid (empty) ledger document. -/
def exKvs : List (String × Json) :=
  [("meta", .obj [("app", .str "WBAM Training App"), ("version", .str "1.0"),
      ("created_at", .str "2024-01-01T00:00:00")]),
   ("sessions", .arr []), ("tasks", .arr []), ("scores", .arr []), ("notes", .arr [])]

/-- **C3 (witness).** Round-trip on the concrete valid document `exKvs`. -/
theorem export_import_roundtrip_witness :
    importDocument (some (exportDocument ⟨.obj exKvs, .null⟩)) ⟨.null, .null⟩
      = (⟨.obj exKvs, .obj exKvs⟩, .imported) :=
  export_import_roundtrip exKvs .null ⟨.null, .null⟩ (by decide)

/-- **C4.** The upload handler validates exactly the presence of the five
top-level keys: an object missing a required key (e.g. `meta`) is rejected
and the previously loaded state — in-memory and persisted — is left
untouched; an object carrying all five keys replaces the active document
and is persisted. -/
theorem import_rejects_missing_key
    (st : AppState) (kvs kvs2 : List (String × Json)) (k : String)
    (hk : k ∈ requiredKeys)
    (hmiss : (kvs.map (fun kv => kv.1)).contains k = false)
    (h2 : requiredKeys.all (fun k2 => (kvs2.map (fun kv => kv.1)).contains k2) = true) :
    importDocument (some (.obj kvs)) st = (st, .invalidFormat)
    ∧ importDocument (some (.obj kvs2)) st = (⟨.obj kvs2, .obj kvs2⟩, .imported) := by
  constructor
  · have hall : requiredKeys.all (fun k2 => (kvs.map (fun kv => kv.1)).contains k2) = false := by
      rw [List.all_eq_false]
      exact ⟨k, hk, by rw [hmiss]; decide⟩
    simp only [importDocument]
    rw [hall]
    rfl
  · simp only [importDocument]
    rw [h2]
    rfl

/-- The key-value list of a document missing the `meta` key. -/
def exKvsNoMeta : List (String × Json) :=
  [("sessions", .arr []), ("tasks", .arr []), ("scores", .arr []), ("notes", .arr [])]

/-- **C4 (witness).** A document missing `meta` is rejected leaving the
state `⟨.num 7, .num 7⟩` unchanged, while the valid document `exKvs` is
imported and persisted. -/
theorem import_rejects_missing_key_witness :
    importDocument (some (.obj exKvsNoMeta)) ⟨.num 7, .num 7⟩
      = (⟨.num 7, .num 7⟩, .invalidFormat)
    ∧ importDocument (some (.obj exKvs)) ⟨.num 7, .num 7⟩
      = (⟨.obj exKvs, .obj exKvs⟩, .imported) :=
  import_rejects_missing_key ⟨.num 7, .num 7⟩ exKvsNoMeta exKvs "meta"
    (by decide) (by decide) (by decide)

/-- **C10.** The upload handler checks nothing but the presence of the five
top-level keys: any object carrying them — whatever the shape of the values —
is imported and persisted as-is, with no per-entity schema validation and no
referential-integrity check. -/
theorem import_checks_only_top_level_keys
    (st : AppState) (kvs : List (String × Json))
    (hkeys : requiredKeys.all (fun k => (kvs.map (fun kv => kv.1)).contains k) = true) :
    importDocument (some (.obj kvs)) st = (⟨.obj kvs, .obj kvs⟩, .imported) := by
  simp only [importDocument]
  rw [hkeys]
  rfl

/-- A document with the five keys but nonsense values (`sessions` bound to a
string, `tasks` to a number, …). -/
def exIllShaped : List (String × Json) :=
  [("meta", .null), ("sessions", .str "not a list"), ("tasks", .num 3),
   ("scores", .bool true), ("notes", .obj [])]

/-- **C10 (witness).** The ill-shaped document `exIllShaped` is imported and
persisted unchanged. -/
theorem import_checks_only_top_level_keys_witness :
    importDocument (some (.obj exIllShaped)) ⟨.null, .null⟩
      = (⟨.obj exIllShaped, .obj exIllShaped⟩, .imported) :=
  import_checks_only_top_level_keys ⟨.null, .null⟩ exIllShaped (by decide)

end WBAM
